import Mathlib

/-!
Shallow embedding of `reagent/training/reagent_lightning_module.py`.

The module `ReAgentLightningModule` is a `pl.LightningModule` subclass whose
mutable fields are modelled by the structure `ModuleState` below; each Python
method becomes a Lean function taking the state (and the relevant attributes
of the host framework, such as `self.logger` or `trainer.should_stop`) as
explicit arguments and returning the updated state.  Python exceptions are
modelled by `Except PyError`; because the Python code mutates `self` before
an exception can propagate, fallible operations return the updated state in
a product alongside the `Except` result rather than inside it.

One-element tensors registered as buffers (`_next_stopping_epoch`,
`_cleanly_stopped`) are modelled as Lean lists (`List Int` / `List Bool`).
The stopping-epoch buffer is created with `.int()` (int32), so
`tensor += scalar` is an element-wise int32 addition: torch first converts
the Python scalar to the tensor's dtype, raising a `RuntimeError` for values
outside int32 (`inInt32`), and the int32 addition itself wraps around on
overflow (`int32Wrap`).  `tensor[0] = v` is `List.set 0`, and `.item()`
succeeds exactly on one-element tensors.
-/

/-- Python exceptions that the embedded code can raise. -/
inductive PyError where
  | stopIteration
  | runtimeError (msg : String)
  | unboundLocalError
  | valueError
deriving Repr, DecidableEq

/-- A Python generator object, as produced by `train_step_gen(batch, batch_idx)`:
the full sequence of values it will yield, together with the cursor recording
how many times `next` has been called on it.  `next` advances the cursor and
raises `StopIteration` once the sequence is exhausted. -/
structure Gen (α : Type) where
  yields : List α
  pos : Nat
deriving Repr, DecidableEq

/-- `next(g)`: `none` models a raised `StopIteration`. -/
def nextGen {α : Type} (g : Gen α) : Option (α × Gen α) :=
  match g.yields[g.pos]? with
  | none => none
  | some a => some (a, { g with pos := g.pos + 1 })

/-- The value held by the `_reporter` attribute.  `pyNone` is Python's `None`
(the field never actually holds it, which is claim C8); `dummyExperiment` is
`pl.loggers.base.DummyExperiment()`; `custom r` is any other reporter object. -/
inductive PyReporter (ρ : Type) where
  | pyNone
  | dummyExperiment
  | custom (r : ρ)
deriving Repr, DecidableEq

/-- The shape of a pytorch-lightning logger object, as far as
`summary_writer` inspects it: a `LoggerCollection` over member loggers, a
`TensorBoardLogger` carrying its `experiment` (the summary writer, modelled
by an identifier), or any other logger. -/
inductive LoggerShape where
  | loggerCollection (loggers : List LoggerShape)
  | tensorBoardLogger (experiment : Nat)
  | otherLogger

/-- A logger object: Python's `is` identity test on loggers is modelled by
comparing `objId` (each distinct runtime object gets a distinct id). -/
structure LoggerObj where
  objId : Nat
  shape : LoggerShape

/-- The mutable state of a `ReAgentLightningModule`, one field per Python
attribute set in `__init__`, plus `globalStep`, which models the
`SummaryWriterContext` global step counter incremented by
`SummaryWriterContext.increase_global_step()` in `training_step`.
`α` is the type of values yielded by `train_step_gen`, `ρ` the type of
custom reporter objects. -/
@[ext]
structure ModuleState (α ρ : Type) where
  trainingStepGenerator : Option (Gen α)
  reporter : PyReporter ρ
  verifiedSteps : Bool
  summaryWriterLogger : Option LoggerObj
  summaryWriter : Option Nat
  nextStoppingEpoch : List Int
  cleanlyStopped : List Bool
  globalStep : Nat

/-- `__init__` (lines 15-28): the generator and summary-writer caches start
empty, the reporter is a `DummyExperiment`, `_verified_steps` is `False`,
`_next_stopping_epoch` is the one-element int tensor `[-1]` and
`_cleanly_stopped` the one-element bool tensor `[True]`.  The global step
counter is taken at zero (a fresh process); `__init__` does not touch it. -/
def initState (α ρ : Type) : ModuleState α ρ where
  trainingStepGenerator := none
  reporter := PyReporter.dummyExperiment
  verifiedSteps := false
  summaryWriterLogger := none
  summaryWriter := none
  nextStoppingEpoch := [-1]
  cleanlyStopped := [true]
  globalStep := 0

/-- The value stored for a registered buffer. -/
inductive BufferVal where
  | intTensor (t : List Int)
  | boolTensor (t : List Bool)
deriving Repr, DecidableEq

/-- The buffers registered by `__init__` (lines 25-26): exactly
`_next_stopping_epoch` and `_cleanly_stopped`, in registration order. -/
def registeredBuffers {α ρ : Type} (s : ModuleState α ρ) : List (String × BufferVal) :=
  [("_next_stopping_epoch", BufferVal.intTensor s.nextStoppingEpoch),
   ("_cleanly_stopped", BufferVal.boolTensor s.cleanlyStopped)]

/-- `tensor.item()`: returns the value of a one-element tensor and raises
otherwise. -/
def tensorItem {γ : Type} (t : List γ) : Except PyError γ :=
  match t with
  | [v] => Except.ok v
  | _ => Except.error PyError.valueError

/-- `set_reporter` (lines 30-34).  The Python method returns `self`; here the
returned state is that `self`. -/
def set_reporter {α ρ : Type} (reporter : PyReporter ρ) (s : ModuleState α ρ) :
    ModuleState α ρ :=
  let reporter := match reporter with
    | PyReporter.pyNone => PyReporter.dummyExperiment
    | r => r
  { s with reporter := reporter }

/-- Lower bound of torch's int32 dtype: `-2^31`. -/
def int32Min : Int := -2147483648

/-- Upper bound of torch's int32 dtype: `2^31 - 1`. -/
def int32Max : Int := 2147483647

/-- Whether a Python int is representable in torch's int32 dtype. -/
abbrev inInt32 (v : Int) : Prop := int32Min ≤ v ∧ v ≤ int32Max

/-- Two's-complement wrap-around of int32 arithmetic: the result reduced
into `[-2^31, 2^31)` modulo `2^32`. -/
def int32Wrap (v : Int) : Int := (v + 2147483648) % 4294967296 - 2147483648

/-- `increase_next_stopping_epochs` (lines 40-43): `_next_stopping_epoch +=
num_epochs` on the int32 buffer created at line 27
(`torch.tensor([-1]).int()`), then `_cleanly_stopped[0] = False`.  torch's
in-place `+=` first converts the Python scalar to the tensor's dtype,
raising `RuntimeError("value cannot be converted to type int without
overflow")` for scalars outside int32; the element-wise int32 addition
itself wraps around on overflow.  The Python method returns `self`; here
the returned state is that `self`. -/
def increase_next_stopping_epochs {α ρ : Type} (num_epochs : Int)
    (s : ModuleState α ρ) : Except PyError (ModuleState α ρ) :=
  if inInt32 num_epochs then
    Except.ok
      { s with
        nextStoppingEpoch := s.nextStoppingEpoch.map (fun v => int32Wrap (v + num_epochs))
        cleanlyStopped := s.cleanlyStopped.set 0 false }
  else
    Except.error (PyError.runtimeError "value cannot be converted to type int without overflow")

/-- `_num_optimizing_steps` (lines 106-108): the length of the list returned
by `configure_optimizers()`.  `υ` is the type of optimizer objects. -/
def num_optimizing_steps {υ : Type} (optimizers : List υ) : Nat :=
  optimizers.length

/-- Lines 88-89 of `training_step`: the generator the call works with — the
one already stored in `_training_step_generator`, or, when that is `None`, a
fresh one obtained from `self.train_step_gen(batch, batch_idx)`. -/
def entryGen {α β ρ : Type} (train_step_gen : β → Nat → List α)
    (batch : β) (batch_idx : Nat) (s : ModuleState α ρ) : Gen α :=
  match s.trainingStepGenerator with
  | none => { yields := train_step_gen batch batch_idx, pos := 0 }
  | some g => g

/-- `training_step` (lines 87-104).  Arguments beyond the Python ones:
`train_step_gen` is the subclass's generator routine, modelled by the full
sequence of values it yields for a given `(batch, batch_idx)`; `N` is
`self._num_optimizing_steps`.  The comparison `optimizer_idx ==
self._num_optimizing_steps - 1` is carried out in `Int`, as in Python.
Returns the Python result (or the raised exception) together with the state
of `self` when the call ends, since the assignments at lines 89 and 98
survive a subsequent raise. -/
def training_step {α β ρ : Type} (train_step_gen : β → Nat → List α) (N : Nat)
    (batch : β) (batch_idx : Nat) (optimizer_idx : Nat) (s : ModuleState α ρ) :
    Except PyError α × ModuleState α ρ :=
  let g := entryGen train_step_gen batch batch_idx s
  match nextGen g with
  | none =>
      -- `next` at line 91 raised StopIteration; the generator installed at
      -- line 89 stays in the field.
      (Except.error PyError.stopIteration, { s with trainingStepGenerator := some g })
  | some (ret, g1) =>
      let s1 := { s with trainingStepGenerator := some g1 }
      if (optimizer_idx : Int) = (N : Int) - 1 then
        if s1.verifiedSteps then
          (Except.ok ret,
           { s1 with trainingStepGenerator := none, globalStep := s1.globalStep + 1 })
        else
          match nextGen g1 with
          | none =>
              -- the extra `next` raised StopIteration: `_verified_steps = True`,
              -- the re-check at line 99 passes, the generator is cleared.
              (Except.ok ret,
               { s1 with verifiedSteps := true, trainingStepGenerator := none,
                         globalStep := s1.globalStep + 1 })
          | some (_, g2) =>
              -- the extra `next` yielded: `_verified_steps` is still False, so
              -- line 100 raises; lines 101-102 never run.
              (Except.error (PyError.runtimeError "training_step_gen() yields too many times"),
               { s1 with trainingStepGenerator := some g2 })
      else
        (Except.ok ret, s1)

/-- `training_epoch_end` (lines 110-117).  `current_epoch` is
`self.current_epoch` and `shouldStop` the value of `trainer.should_stop` at
entry.  The first component is the epoch passed to `self.reporter.flush`
(which happens before `.item()` can raise); the second is the resulting
`trainer.should_stop` paired with the state of `self`, which the method
never mutates. -/
def training_epoch_end {α ρ : Type} (current_epoch : Int) (shouldStop : Bool)
    (s : ModuleState α ρ) : Int × Except PyError (Bool × ModuleState α ρ) :=
  (current_epoch,
   (tensorItem s.nextStoppingEpoch).map fun v =>
     ((if current_epoch = v then true else shouldStop), s))

/-- `first TensorBoardLogger member`: the loop at lines 74-77 walks
`self.logger._logger_iterable` and grabs the `experiment` of the first
`TensorBoardLogger`, if any. -/
def findTensorBoardWriter : List LoggerShape → Option Nat
  | [] => none
  | LoggerShape.tensorBoardLogger e :: _ => some e
  | _ :: rest => findTensorBoardWriter rest

/-- `summary_writer` (lines 60-81).  `selfLogger` is `self.logger` (possibly
Python `None`); the `is` test at line 65 compares object identities.  In the
branch at line 78 the name `logger` is a function-local variable — it is an
assignment target of the `for` statement at line 74 — and on every path that
reaches line 78 that local has never been assigned, so evaluating the
`isinstance` condition raises `UnboundLocalError`; the cache invalidation at
lines 70-71 has already happened by then. -/
def summary_writer {α ρ : Type} (selfLogger : Option LoggerObj)
    (s : ModuleState α ρ) : Except PyError (Option Nat) × ModuleState α ρ :=
  if s.summaryWriterLogger.map LoggerObj.objId = selfLogger.map LoggerObj.objId then
    (Except.ok s.summaryWriter, s)
  else
    let s := { s with summaryWriter := none, summaryWriterLogger := selfLogger }
    match selfLogger with
    | some obj =>
        match obj.shape with
        | LoggerShape.loggerCollection ls =>
            let w := findTensorBoardWriter ls
            (Except.ok w, { s with summaryWriter := w })
        | _ => (Except.error PyError.unboundLocalError, s)
    | none => (Except.error PyError.unboundLocalError, s)

/-- `StoppingEpochCallback.on_pretrain_routine_end` (lines 135-140):
reads `_cleanly_stopped.item()` and, when it is `True`, calls
`increase_next_stopping_epochs(self.num_epochs)` on the module (whose
int32 scalar conversion can itself raise). -/
def on_pretrain_routine_end {α ρ : Type} (num_epochs : Int)
    (s : ModuleState α ρ) : Except PyError (ModuleState α ρ) :=
  (tensorItem s.cleanlyStopped).bind fun cleanly_stopped =>
    if cleanly_stopped then increase_next_stopping_epochs num_epochs s
    else Except.ok s

/-- The sequence of `training_step` calls the host makes for one batch:
`runSteps … k` performs the calls with `optimizer_idx = 0, 1, …, k` in order,
threading the module state, and returns the result of call `k` together with
the state after it. -/
def runSteps {α β ρ : Type} (train_step_gen : β → Nat → List α) (N : Nat)
    (batch : β) (batch_idx : Nat) (s : ModuleState α ρ) :
    Nat → Except PyError α × ModuleState α ρ
  | 0 => training_step train_step_gen N batch batch_idx 0 s
  | k + 1 =>
      training_step train_step_gen N batch batch_idx (k + 1)
        (runSteps train_step_gen N batch batch_idx s k).2

/-! ## Basic lemmas about the generator model and `training_step` branches -/

theorem nextGen_lt {α : Type} (L : List α) (p : Nat) (hp : p < L.length) :
    nextGen { yields := L, pos := p } =
      some (L.get ⟨p, hp⟩, { yields := L, pos := p + 1 }) := by
  simp [nextGen, List.getElem?_eq_getElem hp]

theorem nextGen_ge {α : Type} (L : List α) (p : Nat) (hp : L.length ≤ p) :
    nextGen { yields := L, pos := p } = none := by
  simp [nextGen, List.getElem?_eq_none hp]

theorem entryGen_none {α β ρ : Type} (train_step_gen : β → Nat → List α)
    (batch : β) (batch_idx : Nat) (s : ModuleState α ρ)
    (h : s.trainingStepGenerator = none) :
    entryGen train_step_gen batch batch_idx s =
      { yields := train_step_gen batch batch_idx, pos := 0 } := by
  simp [entryGen, h]

theorem entryGen_some {α β ρ : Type} (train_step_gen : β → Nat → List α)
    (batch : β) (batch_idx : Nat) (s : ModuleState α ρ) (g : Gen α)
    (h : s.trainingStepGenerator = some g) :
    entryGen train_step_gen batch batch_idx s = g := by
  simp [entryGen, h]

theorem training_step_stop {α β ρ : Type} (train_step_gen : β → Nat → List α)
    (N : Nat) (batch : β) (batch_idx optimizer_idx : Nat) (s : ModuleState α ρ)
    (h : nextGen (entryGen train_step_gen batch batch_idx s) = none) :
    training_step train_step_gen N batch batch_idx optimizer_idx s =
      (Except.error PyError.stopIteration,
       { s with trainingStepGenerator := some (entryGen train_step_gen batch batch_idx s) }) := by
  simp only [training_step, h]

theorem training_step_mid {α β ρ : Type} (train_step_gen : β → Nat → List α)
    (N : Nat) (batch : β) (batch_idx optimizer_idx : Nat) (s : ModuleState α ρ)
    (a : α) (g1 : Gen α)
    (h : nextGen (entryGen train_step_gen batch batch_idx s) = some (a, g1))
    (hoi : (optimizer_idx : Int) ≠ (N : Int) - 1) :
    training_step train_step_gen N batch batch_idx optimizer_idx s =
      (Except.ok a, { s with trainingStepGenerator := some g1 }) := by
  simp only [training_step, h]
  rw [if_neg hoi]

theorem training_step_last_verified {α β ρ : Type} (train_step_gen : β → Nat → List α)
    (N : Nat) (batch : β) (batch_idx optimizer_idx : Nat) (s : ModuleState α ρ)
    (a : α) (g1 : Gen α)
    (h : nextGen (entryGen train_step_gen batch batch_idx s) = some (a, g1))
    (hoi : (optimizer_idx : Int) = (N : Int) - 1)
    (hv : s.verifiedSteps = true) :
    training_step train_step_gen N batch batch_idx optimizer_idx s =
      (Except.ok a,
       { s with trainingStepGenerator := none, globalStep := s.globalStep + 1 }) := by
  simp only [training_step, h]
  rw [if_pos hoi]
  simp [hv]

theorem training_step_last_check_ok {α β ρ : Type} (train_step_gen : β → Nat → List α)
    (N : Nat) (batch : β) (batch_idx optimizer_idx : Nat) (s : ModuleState α ρ)
    (a : α) (g1 : Gen α)
    (h : nextGen (entryGen train_step_gen batch batch_idx s) = some (a, g1))
    (hoi : (optimizer_idx : Int) = (N : Int) - 1)
    (hv : s.verifiedSteps = false)
    (h2 : nextGen g1 = none) :
    training_step train_step_gen N batch batch_idx optimizer_idx s =
      (Except.ok a,
       { s with verifiedSteps := true, trainingStepGenerator := none,
                globalStep := s.globalStep + 1 }) := by
  simp only [training_step, h]
  rw [if_pos hoi]
  simp [hv, h2]

theorem training_step_last_check_fail {α β ρ : Type} (train_step_gen : β → Nat → List α)
    (N : Nat) (batch : β) (batch_idx optimizer_idx : Nat) (s : ModuleState α ρ)
    (a b : α) (g1 g2 : Gen α)
    (h : nextGen (entryGen train_step_gen batch batch_idx s) = some (a, g1))
    (hoi : (optimizer_idx : Int) = (N : Int) - 1)
    (hv : s.verifiedSteps = false)
    (h2 : nextGen g1 = some (b, g2)) :
    training_step train_step_gen N batch batch_idx optimizer_idx s =
      (Except.error (PyError.runtimeError "training_step_gen() yields too many times"),
       { s with trainingStepGenerator := some g2 }) := by
  simp only [training_step, h]
  rw [if_pos hoi]
  simp [hv, h2]

/-- `training_step` never touches the reporter, the summary-writer cache or
the two buffers, and it never clears `_verified_steps`. -/
theorem training_step_preserves {α β ρ : Type} (train_step_gen : β → Nat → List α)
    (N : Nat) (batch : β) (batch_idx optimizer_idx : Nat) (s : ModuleState α ρ) :
    ((training_step train_step_gen N batch batch_idx optimizer_idx s).2).reporter = s.reporter ∧
    ((training_step train_step_gen N batch batch_idx optimizer_idx s).2).nextStoppingEpoch = s.nextStoppingEpoch ∧
    ((training_step train_step_gen N batch batch_idx optimizer_idx s).2).cleanlyStopped = s.cleanlyStopped ∧
    ((training_step train_step_gen N batch batch_idx optimizer_idx s).2).summaryWriterLogger = s.summaryWriterLogger ∧
    ((training_step train_step_gen N batch batch_idx optimizer_idx s).2).summaryWriter = s.summaryWriter ∧
    (s.verifiedSteps = true →
      ((training_step train_step_gen N batch batch_idx optimizer_idx s).2).verifiedSteps = true) := by
  simp only [training_step]
  split
  · exact ⟨rfl, rfl, rfl, rfl, rfl, fun h => h⟩
  · split
    · split
      · exact ⟨rfl, rfl, rfl, rfl, rfl, fun h => h⟩
      · split
        · exact ⟨rfl, rfl, rfl, rfl, rfl, fun _ => rfl⟩
        · exact ⟨rfl, rfl, rfl, rfl, rfl, fun h => h⟩
    · exact ⟨rfl, rfl, rfl, rfl, rfl, fun h => h⟩

/-- `summary_writer` only touches the two cache fields. -/
theorem summary_writer_preserves {α ρ : Type} (selfLogger : Option LoggerObj)
    (s : ModuleState α ρ) :
    ((summary_writer selfLogger s).2).reporter = s.reporter ∧
    ((summary_writer selfLogger s).2).nextStoppingEpoch = s.nextStoppingEpoch ∧
    ((summary_writer selfLogger s).2).cleanlyStopped = s.cleanlyStopped ∧
    ((summary_writer selfLogger s).2).verifiedSteps = s.verifiedSteps ∧
    ((summary_writer selfLogger s).2).trainingStepGenerator = s.trainingStepGenerator := by
  simp only [summary_writer]
  split
  · exact ⟨rfl, rfl, rfl, rfl, rfl⟩
  · split
    · split
      · exact ⟨rfl, rfl, rfl, rfl, rfl⟩
      · exact ⟨rfl, rfl, rfl, rfl, rfl⟩
    · exact ⟨rfl, rfl, rfl, rfl, rfl⟩

/-- A successful `tensorItem` pins down the tensor to a singleton. -/
theorem tensorItem_ok {γ : Type} (t : List γ) (v : γ)
    (h : tensorItem t = Except.ok v) : t = [v] := by
  match t with
  | [] => exact absurd h (by simp [tensorItem])
  | [a] =>
      simp only [tensorItem, Except.ok.injEq] at h
      rw [h]
  | a :: b :: r => exact absurd h (by simp [tensorItem])

/-- `int32Wrap` is the identity on int32-representable values: the int32
addition is exact whenever its result fits the dtype. -/
theorem int32Wrap_eq_of_inInt32 (v : Int) (h : inInt32 v) : int32Wrap v = v := by
  obtain ⟨h1, h2⟩ := h
  simp only [int32Min] at h1
  simp only [int32Max] at h2
  unfold int32Wrap
  rw [Int.emod_eq_of_lt (by omega) (by omega)]
  omega

/-- A successful `increase_next_stopping_epochs` pins down the resulting
state: the mapped int32 sum on the counter and the cleared flag. -/
theorem increase_next_stopping_epochs_ok {α ρ : Type} (num_epochs : Int)
    (s sfin : ModuleState α ρ)
    (h : increase_next_stopping_epochs num_epochs s = Except.ok sfin) :
    sfin =
      { s with
        nextStoppingEpoch := s.nextStoppingEpoch.map (fun v => int32Wrap (v + num_epochs))
        cleanlyStopped := s.cleanlyStopped.set 0 false } := by
  unfold increase_next_stopping_epochs at h
  split at h
  · injection h with h2
    exact h2.symm
  · exact absurd h (by simp)

/-- On a successful call, `on_pretrain_routine_end` either performed a
successful increase or returned the module untouched. -/
theorem on_pretrain_routine_end_ok {α ρ : Type} (num_epochs : Int)
    (s sfin : ModuleState α ρ)
    (h : on_pretrain_routine_end num_epochs s = Except.ok sfin) :
    increase_next_stopping_epochs num_epochs s = Except.ok sfin ∨ sfin = s := by
  unfold on_pretrain_routine_end at h
  cases hc : tensorItem s.cleanlyStopped with
  | error e => rw [hc] at h; exact absurd h (by simp [Except.bind])
  | ok b =>
      rw [hc] at h
      simp only [Except.bind] at h
      cases b with
      | false =>
          right
          simp only [if_neg Bool.false_ne_true] at h
          injection h with h2
          exact h2.symm
      | true =>
          left
          simpa using h

/-! ## Claim theorems -/

/-- C4 counterexample: the claim quantifies over every integer
`num_epochs`, but the buffer is int32 (`torch.tensor([-1]).int()`, line
27).  At `num_epochs = 2147483648 = 2^31`, which is not representable in
int32, torch's scalar conversion raises `RuntimeError` — so on the fresh
module the call does not add `num_epochs` to the counter (which would give
`[2147483647]`) and does not return `self`. -/
theorem C4_counterexample :
    increase_next_stopping_epochs 2147483648 (initState Nat Unit) =
      Except.error (PyError.runtimeError "value cannot be converted to type int without overflow") ∧
    increase_next_stopping_epochs 2147483648 (initState Nat Unit) ≠
      Except.ok { initState Nat Unit with nextStoppingEpoch := [2147483647], cleanlyStopped := [false] } := by
  have hcomp : increase_next_stopping_epochs (2147483648 : Int) (initState Nat Unit) =
      Except.error (PyError.runtimeError "value cannot be converted to type int without overflow") := by
    rfl
  exact ⟨hcomp, fun h => Except.noConfusion (hcomp ▸ h)⟩

/-- C4 (amended): for every `num_epochs` representable in int32,
`increase_next_stopping_epochs` adds `num_epochs` to the
`_next_stopping_epoch` counter with int32 wrap-around — exactly, whenever
the sum also fits int32 — sets the `_cleanly_stopped` flag to `False`,
returns `self` (the updated state is the returned value), and modifies no
other field of the module; for `num_epochs` outside int32 it raises
`RuntimeError` instead. -/
theorem C4_increase_next_stopping_epochs {α ρ : Type} (num_epochs : Int)
    (v : Int) (b : Bool) (s : ModuleState α ρ)
    (hv : s.nextStoppingEpoch = [v]) (hb : s.cleanlyStopped = [b]) :
    (inInt32 num_epochs →
      increase_next_stopping_epochs num_epochs s =
        Except.ok { s with nextStoppingEpoch := [int32Wrap (v + num_epochs)], cleanlyStopped := [false] }) ∧
    (inInt32 num_epochs → inInt32 (v + num_epochs) →
      increase_next_stopping_epochs num_epochs s =
        Except.ok { s with nextStoppingEpoch := [v + num_epochs], cleanlyStopped := [false] }) ∧
    (¬ inInt32 num_epochs →
      increase_next_stopping_epochs num_epochs s =
        Except.error (PyError.runtimeError "value cannot be converted to type int without overflow")) := by
  refine ⟨?_, ?_, ?_⟩
  · intro hin
    simp [increase_next_stopping_epochs, hv, hb, hin]
  · intro hin hsum
    simp [increase_next_stopping_epochs, hv, hb, hin,
      int32Wrap_eq_of_inInt32 (v + num_epochs) hsum]
  · intro hnin
    simp [increase_next_stopping_epochs, hnin]

/-- C4 witness: starting from the freshly initialized module, adding 3
epochs (in range, no overflow) turns the counter `[-1]` into `[2]` and
clears the flag. -/
theorem C4_witness :
    increase_next_stopping_epochs 3 (initState Nat Unit) =
      Except.ok { initState Nat Unit with nextStoppingEpoch := [2], cleanlyStopped := [false] } := by
  simpa using
    (C4_increase_next_stopping_epochs 3 (-1) true (initState Nat Unit) rfl rfl).2.1
      (by decide) (by decide)

/-- C5: `training_epoch_end` flushes the reporter with the current epoch
number, sets `trainer.should_stop` to `True` exactly when `current_epoch`
equals the stored `_next_stopping_epoch` value (otherwise `should_stop`
keeps its entry value), and returns the module state unmodified — in
particular `_next_stopping_epoch` and `_cleanly_stopped` are untouched. -/
theorem C5_training_epoch_end {α ρ : Type} (current_epoch : Int)
    (shouldStop : Bool) (v : Int) (s : ModuleState α ρ)
    (hv : s.nextStoppingEpoch = [v]) :
    training_epoch_end current_epoch shouldStop s =
      (current_epoch,
       Except.ok ((if current_epoch = v then true else shouldStop), s)) := by
  simp [training_epoch_end, tensorItem, hv, Except.map]

/-- C5 witness: at epoch `-1`, which equals the initial stopping epoch, the
reporter is flushed with `-1` and `should_stop` is raised from `false` to
`true`, the state staying as initialized. -/
theorem C5_witness :
    training_epoch_end (-1) false (initState Nat Unit) =
      (-1, Except.ok (true, initState Nat Unit)) := by
  simpa using C5_training_epoch_end (-1) false (-1) (initState Nat Unit) rfl

/-- C6 counterexample: on the freshly initialized module `_cleanly_stopped`
is `True`, so the claim asserts the stopping-epoch counter is increased by
the callback's `num_epochs`; for a callback constructed with
`num_epochs = 2147483648 = 2^31` (outside int32) the call instead raises
`RuntimeError` from the int32 buffer's scalar conversion — the counter is
not increased (the claimed result would be `[2147483647]`). -/
theorem C6_counterexample :
    on_pretrain_routine_end 2147483648 (initState Nat Unit) =
      Except.error (PyError.runtimeError "value cannot be converted to type int without overflow") ∧
    on_pretrain_routine_end 2147483648 (initState Nat Unit) ≠
      Except.ok { initState Nat Unit with nextStoppingEpoch := [2147483647], cleanlyStopped := [false] } := by
  have hcomp : on_pretrain_routine_end (2147483648 : Int) (initState Nat Unit) =
      Except.error (PyError.runtimeError "value cannot be converted to type int without overflow") := by
    rfl
  exact ⟨hcomp, fun h => Except.noConfusion (hcomp ▸ h)⟩

/-- C6 (amended): `StoppingEpochCallback.on_pretrain_routine_end` increases
the module's stopping-epoch counter by `num_epochs` — for `num_epochs`
representable in int32 with the int32 sum not overflowing, the int32 buffer
otherwise raising or wrapping — if and only if the `_cleanly_stopped` flag
is `True` at entry (also clearing the flag); when the previous run did not
stop cleanly the module is left unchanged, preserving the interrupted run's
epoch target on resume. -/
theorem C6_on_pretrain_routine_end {α ρ : Type} (num_epochs : Int)
    (v : Int) (b : Bool) (s : ModuleState α ρ)
    (hv : s.nextStoppingEpoch = [v]) (hb : s.cleanlyStopped = [b])
    (hin : inInt32 num_epochs) (hsum : inInt32 (v + num_epochs)) :
    on_pretrain_routine_end num_epochs s =
      Except.ok (if b then
          { s with nextStoppingEpoch := [v + num_epochs], cleanlyStopped := [false] }
        else s) := by
  cases b <;>
    simp [on_pretrain_routine_end, tensorItem, increase_next_stopping_epochs, hv, hb,
      hin, Except.bind, int32Wrap_eq_of_inInt32 (v + num_epochs) hsum]

/-- C6 witness: on the freshly initialized module (cleanly stopped), the
callback with `num_epochs = 5` moves the stopping epoch from `-1` to `4`
and clears the flag. -/
theorem C6_witness :
    on_pretrain_routine_end 5 (initState Nat Unit) =
      Except.ok
        { initState Nat Unit with nextStoppingEpoch := [4], cleanlyStopped := [false] } := by
  simpa using C6_on_pretrain_routine_end 5 (-1) true (initState Nat Unit) rfl rfl
    (by decide) (by decide)

/-- C9: `on_pretrain_routine_end` is idempotent: a second invocation without
an intervening reset of `_cleanly_stopped` leaves the module exactly as
after the first one, because the first invocation (when the flag was `True`)
cleared the flag. -/
theorem C9_on_pretrain_routine_end_idempotent {α ρ : Type} (num_epochs : Int)
    (b : Bool) (s : ModuleState α ρ) (hb : s.cleanlyStopped = [b]) :
    (on_pretrain_routine_end num_epochs s).bind (on_pretrain_routine_end num_epochs) =
      on_pretrain_routine_end num_epochs s := by
  have hsecond : ∀ s2 : ModuleState α ρ, s2.cleanlyStopped = [false] →
      on_pretrain_routine_end num_epochs s2 = Except.ok s2 := by
    intro s2 h2
    simp [on_pretrain_routine_end, tensorItem, h2, Except.bind]
  cases hres : on_pretrain_routine_end num_epochs s with
  | error e => rfl
  | ok sfin =>
      show on_pretrain_routine_end num_epochs sfin = Except.ok sfin
      rcases on_pretrain_routine_end_ok num_epochs s sfin hres with h2 | h2
      · have h3 := increase_next_stopping_epochs_ok num_epochs s sfin h2
        have h4 : sfin.cleanlyStopped = [false] := by rw [h3]; simp [hb]
        exact hsecond sfin h4
      · subst h2
        exact hres

/-- C9 witness: two runs of the callback on the fresh module equal one run. -/
theorem C9_witness :
    (on_pretrain_routine_end 5 (initState Nat Unit)).bind (on_pretrain_routine_end 5) =
      on_pretrain_routine_end 5 (initState Nat Unit) :=
  C9_on_pretrain_routine_end_idempotent 5 true (initState Nat Unit) rfl

/-- C8: the reporter is never `None`: `__init__` installs a
`DummyExperiment`, `set_reporter(None)` replaces `None` with a
`DummyExperiment`, `set_reporter` with a non-`None` argument installs
exactly that argument (and returns `self`, i.e. its output state), and no
other operation of the module touches the reporter. -/
theorem C8_reporter_never_none {α ρ : Type} :
    (initState α ρ).reporter = PyReporter.dummyExperiment ∧
    (∀ s : ModuleState α ρ,
      (set_reporter PyReporter.pyNone s).reporter = PyReporter.dummyExperiment) ∧
    (∀ (r : PyReporter ρ) (s : ModuleState α ρ), r ≠ PyReporter.pyNone →
      (set_reporter r s).reporter = r) ∧
    (∀ (n : Int) (s sfin : ModuleState α ρ),
      increase_next_stopping_epochs n s = Except.ok sfin → sfin.reporter = s.reporter) ∧
    (∀ (β : Type) (train_step_gen : β → Nat → List α) (N : Nat) (batch : β)
      (batch_idx optimizer_idx : Nat) (s : ModuleState α ρ),
      ((training_step train_step_gen N batch batch_idx optimizer_idx s).2).reporter
        = s.reporter) ∧
    (∀ (l : Option LoggerObj) (s : ModuleState α ρ),
      ((summary_writer l s).2).reporter = s.reporter) ∧
    (∀ (n : Int) (s sfin : ModuleState α ρ),
      on_pretrain_routine_end n s = Except.ok sfin → sfin.reporter = s.reporter) := by
  refine ⟨rfl, fun s => rfl, ?_, ?_, ?_, ?_, ?_⟩
  · intro r s hr
    cases r with
    | pyNone => exact absurd rfl hr
    | dummyExperiment => rfl
    | custom x => rfl
  · intro n s sfin h
    rw [increase_next_stopping_epochs_ok n s sfin h]
  · intro β train_step_gen N batch batch_idx optimizer_idx s
    exact (training_step_preserves train_step_gen N batch batch_idx optimizer_idx s).1
  · intro l s
    exact (summary_writer_preserves l s).1
  · intro n s sfin h
    rcases on_pretrain_routine_end_ok n s sfin h with h2 | h2
    · rw [increase_next_stopping_epochs_ok n s sfin h2]
    · rw [h2]

/-- C8 witness: `set_reporter` with the concrete custom reporter `0` on the
fresh module installs exactly that reporter. -/
theorem C8_witness :
    (set_reporter (PyReporter.custom 0) (initState Nat Nat)).reporter
      = PyReporter.custom 0 :=
  (@C8_reporter_never_none Nat Nat).2.2.1 (PyReporter.custom 0) (initState Nat Nat)
    (by decide)

/-- C7: the persisted state registered by `__init__` consists of exactly two
scalar buffers — `_next_stopping_epoch`, a one-element int tensor
initialized to `[-1]`, and `_cleanly_stopped`, a one-element bool tensor
initialized to `[True]` — and every operation of the module keeps each of
them a tensor of its original (single-element) size. -/
theorem C7_persisted_state {α ρ : Type} :
    registeredBuffers (initState α ρ) =
      [("_next_stopping_epoch", BufferVal.intTensor [-1]),
       ("_cleanly_stopped", BufferVal.boolTensor [true])] ∧
    (∀ (r : PyReporter ρ) (s : ModuleState α ρ),
      (set_reporter r s).nextStoppingEpoch.length = s.nextStoppingEpoch.length ∧
      (set_reporter r s).cleanlyStopped.length = s.cleanlyStopped.length) ∧
    (∀ (n : Int) (s sfin : ModuleState α ρ),
      increase_next_stopping_epochs n s = Except.ok sfin →
      sfin.nextStoppingEpoch.length = s.nextStoppingEpoch.length ∧
      sfin.cleanlyStopped.length = s.cleanlyStopped.length) ∧
    (∀ (β : Type) (train_step_gen : β → Nat → List α) (N : Nat) (batch : β)
      (batch_idx optimizer_idx : Nat) (s : ModuleState α ρ),
      ((training_step train_step_gen N batch batch_idx optimizer_idx s).2).nextStoppingEpoch.length
          = s.nextStoppingEpoch.length ∧
      ((training_step train_step_gen N batch batch_idx optimizer_idx s).2).cleanlyStopped.length
          = s.cleanlyStopped.length) ∧
    (∀ (ce : Int) (stop : Bool) (s : ModuleState α ρ) (b : Bool)
      (sfin : ModuleState α ρ),
      (training_epoch_end ce stop s).2 = Except.ok (b, sfin) → sfin = s) ∧
    (∀ (l : Option LoggerObj) (s : ModuleState α ρ),
      ((summary_writer l s).2).nextStoppingEpoch.length = s.nextStoppingEpoch.length ∧
      ((summary_writer l s).2).cleanlyStopped.length = s.cleanlyStopped.length) ∧
    (∀ (n : Int) (s sfin : ModuleState α ρ),
      on_pretrain_routine_end n s = Except.ok sfin →
      sfin.nextStoppingEpoch.length = s.nextStoppingEpoch.length ∧
      sfin.cleanlyStopped.length = s.cleanlyStopped.length) := by
  refine ⟨rfl, fun r s => ⟨rfl, rfl⟩, ?_, ?_, ?_, ?_, ?_⟩
  · intro n s sfin h
    rw [increase_next_stopping_epochs_ok n s sfin h]
    constructor
    · simp
    · simp
  · intro β train_step_gen N batch batch_idx optimizer_idx s
    have h := training_step_preserves train_step_gen N batch batch_idx optimizer_idx s
    exact ⟨by rw [h.2.1], by rw [h.2.2.1]⟩
  · intro ce stop s b sfin h
    unfold training_epoch_end at h
    cases hc : tensorItem s.nextStoppingEpoch with
    | error e => rw [hc] at h; exact absurd h (by simp [Except.map])
    | ok v =>
        rw [hc] at h
        simp only [Except.map, Except.ok.injEq, Prod.mk.injEq] at h
        exact h.2.symm
  · intro l s
    have h := summary_writer_preserves l s
    exact ⟨by rw [h.2.1], by rw [h.2.2.1]⟩
  · intro n s sfin h
    rcases on_pretrain_routine_end_ok n s sfin h with h2 | h2
    · rw [increase_next_stopping_epochs_ok n s sfin h2]
      constructor
      · simp
      · simp
    · subst h2
      exact ⟨rfl, rfl⟩

/-- C7 witness: a concrete successful callback run preserves the
single-element size of both buffers. -/
theorem C7_witness :
    ({ initState Nat Unit with nextStoppingEpoch := [1], cleanlyStopped := [false] }
        : ModuleState Nat Unit).nextStoppingEpoch.length
        = (initState Nat Unit).nextStoppingEpoch.length ∧
    ({ initState Nat Unit with nextStoppingEpoch := [1], cleanlyStopped := [false] }
        : ModuleState Nat Unit).cleanlyStopped.length
        = (initState Nat Unit).cleanlyStopped.length :=
  (@C7_persisted_state Nat Unit).2.2.2.2.2.2 2 (initState Nat Unit)
    { initState Nat Unit with nextStoppingEpoch := [1], cleanlyStopped := [false] } rfl

/-- Within one batch, the calls with the non-final optimizer indices
`0, …, k` (where `k + 1 < N`) each succeed, return the k-th yielded value,
and leave the batch's generator installed with its cursor at `k + 1`. -/
theorem runSteps_inv {α β ρ : Type} (train_step_gen : β → Nat → List α) (N : Nat)
    (batch : β) (batch_idx : Nat) (s : ModuleState α ρ)
    (hgen : s.trainingStepGenerator = none)
    (hlen : (train_step_gen batch batch_idx).length = N)
    (k : Nat) (hk : k + 1 < N) :
    runSteps train_step_gen N batch batch_idx s k =
      (Except.ok ((train_step_gen batch batch_idx).get ⟨k, by omega⟩),
       { s with
         trainingStepGenerator := some { yields := train_step_gen batch batch_idx, pos := k + 1 } }) := by
  induction k with
  | zero =>
      have h0 : (0 : Nat) < (train_step_gen batch batch_idx).length := by omega
      have hg := entryGen_none train_step_gen batch batch_idx s hgen
      have hnext : nextGen (entryGen train_step_gen batch batch_idx s) =
          some ((train_step_gen batch batch_idx).get ⟨0, h0⟩,
                { yields := train_step_gen batch batch_idx, pos := 1 }) := by
        rw [hg]; exact nextGen_lt _ 0 h0
      have hoi : ((0 : Nat) : Int) ≠ (N : Int) - 1 := by omega
      simpa [runSteps] using
        training_step_mid train_step_gen N batch batch_idx 0 s _ _ hnext hoi
  | succ k ih =>
      have hk2 : k + 1 < N := by omega
      have ihh := ih hk2
      have hstate : (runSteps train_step_gen N batch batch_idx s k).2 =
          { s with
            trainingStepGenerator := some { yields := train_step_gen batch batch_idx, pos := k + 1 } } := by
        rw [ihh]
      have hgenk : ((runSteps train_step_gen N batch batch_idx s k).2).trainingStepGenerator =
          some { yields := train_step_gen batch batch_idx, pos := k + 1 } := by
        rw [hstate]
      have hg := entryGen_some train_step_gen batch batch_idx
        ((runSteps train_step_gen N batch batch_idx s k).2) _ hgenk
      have hp : k + 1 < (train_step_gen batch batch_idx).length := by omega
      have hnext : nextGen (entryGen train_step_gen batch batch_idx
            ((runSteps train_step_gen N batch batch_idx s k).2)) =
          some ((train_step_gen batch batch_idx).get ⟨k + 1, hp⟩,
                { yields := train_step_gen batch batch_idx, pos := k + 2 }) := by
        rw [hg]; exact nextGen_lt _ (k + 1) hp
      have hoi : (((k + 1 : Nat)) : Int) ≠ (N : Int) - 1 := by push_cast; omega
      have hts := training_step_mid train_step_gen N batch batch_idx (k + 1)
          ((runSteps train_step_gen N batch batch_idx s k).2) _ _ hnext hoi
      rw [show runSteps train_step_gen N batch batch_idx s (k + 1) =
            training_step train_step_gen N batch batch_idx (k + 1)
              ((runSteps train_step_gen N batch batch_idx s k).2) from rfl, hts, hstate]

/-- C1: for a batch (entered with no generator pending), the first
`training_step` call creates a generator by calling
`train_step_gen(batch, batch_idx)`, and the successive calls with optimizer
indices `0, …, N - 1` (where `N = _num_optimizing_steps` matches the number
of yielded values) each return the next value yielded by that same
generator: the call with 0-based optimizer index `k` returns the (k+1)-th
yielded value. -/
theorem C1_generator_step_protocol {α β ρ : Type} (train_step_gen : β → Nat → List α)
    (N : Nat) (batch : β) (batch_idx : Nat) (s : ModuleState α ρ)
    (hgen : s.trainingStepGenerator = none)
    (hlen : (train_step_gen batch batch_idx).length = N)
    (k : Nat) (hk : k < N) :
    (runSteps train_step_gen N batch batch_idx s k).1 =
      Except.ok ((train_step_gen batch batch_idx).get ⟨k, by omega⟩) := by
  by_cases hlast : k + 1 < N
  · rw [runSteps_inv train_step_gen N batch batch_idx s hgen hlen k hlast]
  · have hkN : k + 1 = N := by omega
    cases k with
    | zero =>
        have h0 : (0 : Nat) < (train_step_gen batch batch_idx).length := by omega
        have hg := entryGen_none train_step_gen batch batch_idx s hgen
        have hnext : nextGen (entryGen train_step_gen batch batch_idx s) =
            some ((train_step_gen batch batch_idx).get ⟨0, h0⟩,
                  { yields := train_step_gen batch batch_idx, pos := 1 }) := by
          rw [hg]; exact nextGen_lt _ 0 h0
        have hoi : ((0 : Nat) : Int) = (N : Int) - 1 := by omega
        cases hv : s.verifiedSteps with
        | true =>
            have hts := training_step_last_verified train_step_gen N batch batch_idx 0 s
              _ _ hnext hoi hv
            simpa [runSteps] using congrArg Prod.fst hts
        | false =>
            have hstop : nextGen { yields := train_step_gen batch batch_idx, pos := 1 }
                = none := nextGen_ge _ 1 (by omega)
            have hts := training_step_last_check_ok train_step_gen N batch batch_idx 0 s
              _ _ hnext hoi hv hstop
            simpa [runSteps] using congrArg Prod.fst hts
    | succ j =>
        have hjlt : j + 1 < N := by omega
        have hprev := runSteps_inv train_step_gen N batch batch_idx s hgen hlen j hjlt
        have hgenk : ((runSteps train_step_gen N batch batch_idx s j).2).trainingStepGenerator =
            some { yields := train_step_gen batch batch_idx, pos := j + 1 } := by
          rw [hprev]
        have hg := entryGen_some train_step_gen batch batch_idx
          ((runSteps train_step_gen N batch batch_idx s j).2) _ hgenk
        have hp : j + 1 < (train_step_gen batch batch_idx).length := by omega
        have hnext : nextGen (entryGen train_step_gen batch batch_idx
              ((runSteps train_step_gen N batch batch_idx s j).2)) =
            some ((train_step_gen batch batch_idx).get ⟨j + 1, hp⟩,
                  { yields := train_step_gen batch batch_idx, pos := j + 2 }) := by
          rw [hg]; exact nextGen_lt _ (j + 1) hp
        have hoi : (((j + 1 : Nat)) : Int) = (N : Int) - 1 := by push_cast; omega
        have hrun : (runSteps train_step_gen N batch batch_idx s (j + 1)).1 =
            (training_step train_step_gen N batch batch_idx (j + 1)
              ((runSteps train_step_gen N batch batch_idx s j).2)).1 := rfl
        cases hv : ((runSteps train_step_gen N batch batch_idx s j).2).verifiedSteps with
        | true =>
            have hts := training_step_last_verified train_step_gen N batch batch_idx (j + 1)
              ((runSteps train_step_gen N batch batch_idx s j).2) _ _ hnext hoi hv
            rw [hrun, hts]
        | false =>
            have hstop : nextGen { yields := train_step_gen batch batch_idx, pos := j + 2 }
                = none := nextGen_ge _ (j + 2) (by omega)
            have hts := training_step_last_check_ok train_step_gen N batch batch_idx (j + 1)
              ((runSteps train_step_gen N batch batch_idx s j).2) _ _ hnext hoi hv hstop
            rw [hrun, hts]

/-- C1 witness: with a generator yielding `[10, 20]` and two optimizers, the
call with optimizer index 1 on a fresh module returns the second yielded
value, `20`. -/
theorem C1_witness :
    (runSteps (fun _ _ => [10, 20]) 2 (7 : Nat) 0 (initState Nat Unit) 1).1 =
      Except.ok 20 := by
  simpa using C1_generator_step_protocol (fun _ _ => [10, 20]) 2 7 0
    (initState Nat Unit) rfl rfl 1 (by decide)

/-- C2: on the `training_step` call with the last optimizer index
(`optimizer_idx = _num_optimizing_steps - 1`), when `_verified_steps` is
`False` and the generator can still yield after the returned value, the call
raises `RuntimeError("training_step_gen() yields too many times")`; when the
extra advance instead hits `StopIteration`, the call succeeds and
`_verified_steps` becomes `True`.  Once `True`, the flag survives every
later `training_step` call and the check is skipped: the last-index call
succeeds no matter how many values remain. -/
theorem C2_yield_verification {α β ρ : Type} (train_step_gen : β → Nat → List α)
    (N : Nat) (batch : β) (batch_idx optimizer_idx : Nat)
    (s : ModuleState α ρ) (L : List α) (p : Nat)
    (hg : s.trainingStepGenerator = some { yields := L, pos := p })
    (hp : p < L.length)
    (hoi : (optimizer_idx : Int) = (N : Int) - 1) :
    (s.verifiedSteps = false → p + 1 < L.length →
      (training_step train_step_gen N batch batch_idx optimizer_idx s).1 =
        Except.error (PyError.runtimeError "training_step_gen() yields too many times")) ∧
    (s.verifiedSteps = false → p + 1 = L.length →
      (training_step train_step_gen N batch batch_idx optimizer_idx s).1 =
          Except.ok (L.get ⟨p, hp⟩) ∧
      ((training_step train_step_gen N batch batch_idx optimizer_idx s).2).verifiedSteps = true) ∧
    (s.verifiedSteps = true →
      (training_step train_step_gen N batch batch_idx optimizer_idx s).1 =
        Except.ok (L.get ⟨p, hp⟩)) ∧
    (∀ (optimizer_idx2 : Nat) (s2 : ModuleState α ρ), s2.verifiedSteps = true →
      ((training_step train_step_gen N batch batch_idx optimizer_idx2 s2).2).verifiedSteps
        = true) := by
  have hge : entryGen train_step_gen batch batch_idx s = { yields := L, pos := p } :=
    entryGen_some train_step_gen batch batch_idx s _ hg
  have hnext : nextGen (entryGen train_step_gen batch batch_idx s) =
      some (L.get ⟨p, hp⟩, { yields := L, pos := p + 1 }) := by
    rw [hge]; exact nextGen_lt L p hp
  refine ⟨?_, ?_, ?_, ?_⟩
  · intro hv hmore
    have h2 : nextGen { yields := L, pos := p + 1 } =
        some (L.get ⟨p + 1, hmore⟩, { yields := L, pos := p + 2 }) :=
      nextGen_lt L (p + 1) hmore
    rw [training_step_last_check_fail train_step_gen N batch batch_idx optimizer_idx s
      _ _ _ _ hnext hoi hv h2]
  · intro hv hend
    have h2 : nextGen { yields := L, pos := p + 1 } = none :=
      nextGen_ge L (p + 1) (by omega)
    rw [training_step_last_check_ok train_step_gen N batch batch_idx optimizer_idx s
      _ _ hnext hoi hv h2]
    exact ⟨rfl, rfl⟩
  · intro hv
    rw [training_step_last_verified train_step_gen N batch batch_idx optimizer_idx s
      _ _ hnext hoi hv]
  · intro optimizer_idx2 s2 hv2
    exact (training_step_preserves train_step_gen N batch batch_idx optimizer_idx2 s2).2.2.2.2.2 hv2

/-- C2 witness: with one optimizer and an unverified generator positioned
at the start of `[10, 20]`, the last-index call (index 0) raises the
too-many-yields `RuntimeError`. -/
theorem C2_witness :
    (training_step (fun _ _ => ([] : List Nat)) 1 (0 : Nat) 0 0
        { initState Nat Unit with trainingStepGenerator := some { yields := [10, 20], pos := 0 } }).1 =
      Except.error (PyError.runtimeError "training_step_gen() yields too many times") :=
  (C2_yield_verification (fun _ _ => ([] : List Nat)) 1 0 0 0
      { initState Nat Unit with trainingStepGenerator := some { yields := [10, 20], pos := 0 } }
      [10, 20] 0 rfl (by decide) (by decide)).1 rfl (by decide)

/-- C3: when a `training_step` call returns normally, the call with the last
optimizer index leaves `_training_step_generator` reset to `None` (so the
next call creates a fresh generator for the next batch), while a call with
any smaller optimizer index leaves the field non-`None`, still holding the
generator in use: whenever a generator was installed at entry, after the
call the field holds that same generator (same yield sequence), its cursor
advanced only by the one `next` the call performed. -/
theorem C3_generator_reset {α β ρ : Type} (train_step_gen : β → Nat → List α)
    (N : Nat) (batch : β) (batch_idx optimizer_idx : Nat)
    (s : ModuleState α ρ) (a : α)
    (hok : (training_step train_step_gen N batch batch_idx optimizer_idx s).1
      = Except.ok a) :
    ((optimizer_idx : Int) = (N : Int) - 1 →
      ((training_step train_step_gen N batch batch_idx optimizer_idx s).2).trainingStepGenerator
        = none) ∧
    ((optimizer_idx : Int) ≠ (N : Int) - 1 →
      (((training_step train_step_gen N batch batch_idx optimizer_idx s).2).trainingStepGenerator.isSome
          = true ∧
       ∀ g : Gen α, s.trainingStepGenerator = some g →
         ((training_step train_step_gen N batch batch_idx optimizer_idx s).2).trainingStepGenerator
           = some { yields := g.yields, pos := g.pos + 1 })) := by
  cases hn : nextGen (entryGen train_step_gen batch batch_idx s) with
  | none =>
      rw [training_step_stop train_step_gen N batch batch_idx optimizer_idx s hn] at hok
      exact absurd hok (by simp)
  | some pair =>
      obtain ⟨b, g1⟩ := pair
      constructor
      · intro hoi
        cases hv : s.verifiedSteps with
        | true =>
            rw [training_step_last_verified train_step_gen N batch batch_idx optimizer_idx s
              b g1 hn hoi hv]
        | false =>
            cases hn2 : nextGen g1 with
            | none =>
                rw [training_step_last_check_ok train_step_gen N batch batch_idx optimizer_idx s
                  b g1 hn hoi hv hn2]
            | some pair2 =>
                obtain ⟨c, g2⟩ := pair2
                rw [training_step_last_check_fail train_step_gen N batch batch_idx optimizer_idx s
                  b c g1 g2 hn hoi hv hn2] at hok
                exact absurd hok (by simp)
      · intro hoi
        rw [training_step_mid train_step_gen N batch batch_idx optimizer_idx s b g1 hn hoi]
        refine ⟨rfl, ?_⟩
        intro g hgs
        have hge : entryGen train_step_gen batch batch_idx s = g :=
          entryGen_some train_step_gen batch batch_idx s g hgs
        rw [hge] at hn
        unfold nextGen at hn
        cases hgp : g.yields[g.pos]? with
        | none => rw [hgp] at hn; exact absurd hn (by simp)
        | some x =>
            rw [hgp] at hn
            simp only [Option.some.injEq, Prod.mk.injEq] at hn
            rw [← hn.2]

/-- C3 witness: with two optimizers, the call with optimizer index 0 on a
fresh module leaves a generator installed. -/
theorem C3_witness :
    (((training_step (fun _ _ => [10, 20]) 2 (0 : Nat) 0 0 (initState Nat Unit)).2).trainingStepGenerator).isSome = true :=
  ((C3_generator_reset (fun _ _ => [10, 20]) 2 0 0 0 (initState Nat Unit) 10 rfl).2
    (by decide)).1

/-- C10 counterexample: the claim says that for a module whose `self.logger`
is a plain `TensorBoardLogger` (not wrapped in a `LoggerCollection`) and
differs from the cached logger, `summary_writer` returns `None`.  On the
freshly initialized module with such a logger it does not: the access raises
`UnboundLocalError` instead of returning, because the `elif` branch at line
78 reads the function-local name `logger` (an assignment target of the `for`
statement at line 74), which is unbound on that path — not the module-level
`logging.Logger`. -/
theorem C10_counterexample :
    (summary_writer (some { objId := 5, shape := LoggerShape.tensorBoardLogger 3 })
        (initState Nat Unit)).1 ≠ Except.ok none := by
  intro h
  exact Except.noConfusion h

/-- C10 (amended): when `self.logger` differs from the logger cached at the
previous call and is not a `LoggerCollection`, `summary_writer` caches
`None` (and the new logger) and then raises `UnboundLocalError` — the
non-collection branch reads the unassigned function-local name `logger`
rather than `self.logger` — so it never returns the underlying writer; a
subsequent access with the same logger returns the cached `None`. -/
theorem C10_summary_writer_non_collection {α ρ : Type} (selfLogger : Option LoggerObj)
    (s : ModuleState α ρ)
    (hdiff : s.summaryWriterLogger.map LoggerObj.objId ≠ selfLogger.map LoggerObj.objId)
    (hnc : ∀ (obj : LoggerObj) (ls : List LoggerShape),
      selfLogger = some obj → obj.shape ≠ LoggerShape.loggerCollection ls) :
    summary_writer selfLogger s =
      (Except.error PyError.unboundLocalError,
       { s with summaryWriter := none, summaryWriterLogger := selfLogger }) ∧
    summary_writer selfLogger { s with summaryWriter := none, summaryWriterLogger := selfLogger } =
      (Except.ok none,
       { s with summaryWriter := none, summaryWriterLogger := selfLogger }) := by
  constructor
  · simp only [summary_writer]
    rw [if_neg hdiff]
    cases selfLogger with
    | none => rfl
    | some obj =>
        cases hs : obj.shape with
        | loggerCollection ls => exact absurd hs (hnc obj ls rfl)
        | tensorBoardLogger e => simp [hs]
        | otherLogger => simp [hs]
  · simp [summary_writer]

/-- C10 witness: concrete instance of the amended claim — a fresh module
whose logger is a plain `TensorBoardLogger`: the first access caches `None`
and raises `UnboundLocalError`. -/
theorem C10_witness :
    summary_writer (some { objId := 5, shape := LoggerShape.tensorBoardLogger 3 })
        (initState Nat Unit) =
      (Except.error PyError.unboundLocalError,
       { initState Nat Unit with
         summaryWriter := none
         summaryWriterLogger := some { objId := 5, shape := LoggerShape.tensorBoardLogger 3 } }) :=
  (C10_summary_writer_non_collection
      (some { objId := 5, shape := LoggerShape.tensorBoardLogger 3 })
      (initState Nat Unit) (by decide)
      (fun obj ls h => by
        injection h with h2
        subst h2
        exact fun hc => LoggerShape.noConfusion hc)).1
